import Mathlib

/-!
Verification of the SignLens gesture-detection core
(repository classifiedstudentkabir/Sign-Language-Interpreter-frontend).

The JavaScript sources are shallowly embedded below.  JS numbers are
modelled as rationals (every comparison exercised here is far from any
floating-point rounding boundary), JS `null` as `Option.none`, and a JS
exception (e.g. a TypeError from reading `.x`/`.y` of `undefined` after an
out-of-range landmark access) as `Option.none` at the result type of the
embedded function.  Several source files exist in two near-duplicate
variants in the repository; both variants are embedded where they differ
(`detectTwoHandGesture` vs `detectTwoHandGestureV2`, `getFingerStates` vs
`getFingerStates2`).
-/

/-- A MediaPipe hand landmark: normalized coordinates.  The source only
ever reads `.x` and `.y` (a `z` coordinate is unused). -/
structure Landmark where
  x : ℚ
  y : ℚ
deriving DecidableEq, Repr

/-- A hand is the array of landmarks MediaPipe reports (nominally 21). -/
abbrev Hand := List Landmark

/-- Finger open/closed flags in the order the source builds them:
`[thumb, index, middle, ring, pinky]`.  Used both for the array produced
by `getFingerStates` in `gesture-detection.js` and for the record produced
by `getFingerStates` in `gestures/oneHand/fingers.js`. -/
structure FingerState where
  thumb : Bool
  index : Bool
  middle : Bool
  ring : Bool
  pinky : Bool
deriving DecidableEq, Repr

/-- The five flags as a list, mirroring the JS array `fingers`. -/
def FingerState.toList (fs : FingerState) : List Bool :=
  [fs.thumb, fs.index, fs.middle, fs.ring, fs.pinky]

/-- `fingers.filter(f => f).length` from the source. -/
def openCount (fs : FingerState) : Nat :=
  (fs.toList.filter (fun b => b)).length

/-- `getFingerStates` from `src/frontend/src/gesture-detection.js`
(lines 75-94): thumb open iff `Math.abs(thumbTip.x - thumbBase.x) > 0.05`
(landmarks 4 and 2); each other finger open iff its tip's y is strictly
below (smaller than) its base's y (tips 8/12/16/20, bases 6/10/14/18).
`none` models the TypeError thrown when a needed landmark is missing. -/
def getFingerStates (landmarks : Hand) : Option FingerState := do
  let thumbTip ← landmarks[4]?
  let thumbBase ← landmarks[2]?
  let t := decide (|thumbTip.x - thumbBase.x| > (0.05 : ℚ))
  let tip1 ← landmarks[8]?
  let base1 ← landmarks[6]?
  let tip2 ← landmarks[12]?
  let base2 ← landmarks[10]?
  let tip3 ← landmarks[16]?
  let base3 ← landmarks[14]?
  let tip4 ← landmarks[20]?
  let base4 ← landmarks[18]?
  pure ⟨t, decide (tip1.y < base1.y), decide (tip2.y < base2.y),
        decide (tip3.y < base3.y), decide (tip4.y < base4.y)⟩

/-- `getFingerStates` from `src/frontend/src/gestures/oneHand/fingers.js`
(`src/unnamed/part_000`): the thumb test is the signed comparison
`landmarks[4].x > landmarks[2].x` (no threshold); the four other fingers
use the same tip-below-pip test as the other extractor. -/
def getFingerStates2 (landmarks : Hand) : Option FingerState := do
  let thumbTip ← landmarks[4]?
  let thumbBase ← landmarks[2]?
  let t := decide (thumbTip.x > thumbBase.x)
  let tip1 ← landmarks[8]?
  let base1 ← landmarks[6]?
  let tip2 ← landmarks[12]?
  let base2 ← landmarks[10]?
  let tip3 ← landmarks[16]?
  let base3 ← landmarks[14]?
  let tip4 ← landmarks[20]?
  let base4 ← landmarks[18]?
  pure ⟨t, decide (tip1.y < base1.y), decide (tip2.y < base2.y),
        decide (tip3.y < base3.y), decide (tip4.y < base4.y)⟩

/-- `isOpenPalm` from `gesture-detection.js`. -/
def isOpenPalm (fs : FingerState) : Bool := openCount fs == 5

/-- `isFist` from `gesture-detection.js`. -/
def isFist (fs : FingerState) : Bool := openCount fs == 0

/-- `isThumbsUp` from `gesture-detection.js`.  The JS `&&` chain
short-circuits, so the landmark y-coordinates are only read when the
finger pattern already holds; hence a pattern failure yields `some false`
without touching the landmarks. -/
def isThumbsUp (fs : FingerState) (landmarks : Hand) : Option Bool :=
  if fs.thumb && !fs.index && !fs.middle && !fs.ring && !fs.pinky then do
    let a ← landmarks[4]?
    let b ← landmarks[8]?
    pure (decide (a.y < b.y))
  else pure false

/-- `isThumbsDown` from `gesture-detection.js`. -/
def isThumbsDown (fs : FingerState) (landmarks : Hand) : Option Bool :=
  if fs.thumb && !fs.index && !fs.middle && !fs.ring && !fs.pinky then do
    let a ← landmarks[4]?
    let b ← landmarks[8]?
    pure (decide (a.y > b.y))
  else pure false

/-- `isPointingUp` from `gesture-detection.js`. -/
def isPointingUp (fs : FingerState) (landmarks : Hand) : Option Bool :=
  if !fs.thumb && fs.index && !fs.middle && !fs.ring && !fs.pinky then do
    let a ← landmarks[8]?
    let b ← landmarks[6]?
    pure (decide (a.y < b.y))
  else pure false

/-- `detectSingleHandGesture` from `gesture-detection.js` (lines 56-73).
Outer `none` = a JS exception; `some none` = the function returned `null`;
`some (some s)` = it returned the label `s`.  The trailing `return null`
is the final `pure none`. -/
def detectSingleHandGesture (landmarks : Option Hand) : Option (Option String) :=
  match landmarks with
  | none => some none
  | some lm => do
    let fingers ← getFingerStates lm
    if isOpenPalm fingers then pure (some "OPEN_PALM")
    else if isFist fingers then pure (some "FIST")
    else do
      let tu ← isThumbsUp fingers lm
      if tu then pure (some "THUMBS_UP")
      else do
        let td ← isThumbsDown fingers lm
        if td then pure (some "THUMBS_DOWN")
        else do
          let pu ← isPointingUp fingers lm
          if pu then pure (some "POINTING_UP")
          else
            let numberCount := openCount fingers
            if 0 ≤ numberCount && numberCount ≤ 5 then
              pure (some ("NUMBER_" ++ toString numberCount))
            else
              pure none

/-- `GESTURE_CONFIG.STABILITY_FRAMES` from `gesture-detection.js`. -/
def STABILITY_FRAMES : Nat := 5

/-- `Math.ceil(GESTURE_CONFIG.STABILITY_FRAMES * 0.8)` from
`applyStabilityFilter`.  (In IEEE doubles `5 * 0.8` is exactly `4`, so the
rational computation agrees with the JS one.) -/
def stabilityThreshold : Nat := (((STABILITY_FRAMES : ℚ) * 0.8).ceil).toNat

/-- The mutable `handTracker` object of `gesture-detection.js`. -/
structure HandTracker where
  leftHand : Option Hand
  rightHand : Option Hand
  frameCount : Nat
  stabilityBuffer : List (Option String)
  lastGesture : Option String
deriving DecidableEq, Repr

/-- `resetHandTracker` from `gesture-detection.js` (lines 272-280):
replaces the tracker with the freshly initialised state. -/
def resetHandTracker : HandTracker :=
  { leftHand := none, rightHand := none, frameCount := 0,
    stabilityBuffer := [], lastGesture := none }

/-- One step of the `gestureCounts[gesture] = (gestureCounts[gesture] || 0) + 1`
update: increment the entry for `s` in place, or append a fresh `(s, 1)`
entry (JS object properties keep insertion order). -/
def bumpCount : List (String × Nat) → String → List (String × Nat)
  | [], s => [(s, 1)]
  | (k, c) :: rest, s =>
      if k == s then (k, c + 1) :: rest else (k, c) :: bumpCount rest s

/-- The `gestureCounts` tally of `applyStabilityFilter`: non-null (and, by
JS truthiness, non-empty-string) labels are counted, keys in first-seen
order. -/
def tallyGestures (buf : List (Option String)) : List (String × Nat) :=
  buf.foldl (fun acc g =>
    match g with
    | some s => if s == "" then acc else bumpCount acc s
    | none => acc) []

/-- The `for (const gesture in gestureCounts)` scan of
`applyStabilityFilter`: strict `>` keeps the first key attaining the
maximum count; starts from `(null, 0)`. -/
def maxScan (counts : List (String × Nat)) : Option String × Nat :=
  counts.foldl (fun acc kc => if kc.2 > acc.2 then (some kc.1, kc.2) else acc)
    (none, 0)

/-- `applyStabilityFilter` from `gesture-detection.js` (lines 172-207),
with the mutable `handTracker` threaded explicitly: push the raw label,
drop the oldest entry past `STABILITY_FRAMES`, return `lastGesture` while
the window is not yet full, otherwise confirm the most frequent label when
its count reaches `Math.ceil(STABILITY_FRAMES * 0.8)` and return the
previous `lastGesture` otherwise. -/
def applyStabilityFilter (currentGesture : Option String) (st : HandTracker) :
    Option String × HandTracker :=
  let buf1 := st.stabilityBuffer ++ [currentGesture]
  let buf2 := if buf1.length > STABILITY_FRAMES then buf1.tail else buf1
  if buf2.length < STABILITY_FRAMES then
    (st.lastGesture, { st with stabilityBuffer := buf2 })
  else
    let counts := tallyGestures buf2
    let scan := maxScan counts
    if scan.2 ≥ stabilityThreshold then
      (scan.1, { st with stabilityBuffer := buf2, lastGesture := scan.1 })
    else
      (st.lastGesture, { st with stabilityBuffer := buf2 })

/-- Feed a list of raw per-frame labels through `applyStabilityFilter`,
collecting the per-frame outputs and the final tracker state. -/
def runFilter : List (Option String) → HandTracker → List (Option String) × HandTracker
  | [], st => ([], st)
  | g :: rest, st =>
      let step := applyStabilityFilter g st
      let tail := runFilter rest step.2
      (step.1 :: tail.1, tail.2)

/-- `Math.ceil(5 * 0.8)` evaluates to `4`. -/
theorem stabilityThreshold_eq : stabilityThreshold = 4 := by
  have h : ((STABILITY_FRAMES : ℚ) * 0.8) = 4 := by norm_num [STABILITY_FRAMES]
  rw [stabilityThreshold, h]
  rfl

/-- The MediaPipe results object as the core reads it:
`multiHandLandmarks` and the `label` fields of `multiHandedness`. -/
structure Results where
  multiHandLandmarks : List Hand
  multiHandedness : List String
deriving DecidableEq, Repr

/-- `assignHandRoles` from `gesture-detection.js` (lines 24-51).
0 hands: both roles null.  1 hand: role from the reported handedness label
(`"Right"` goes to the left slot, reflecting MediaPipe's mirrored labels;
reading a missing `multiHandedness[0]` throws, modelled `none`).  2+ hands:
handedness is ignored and the hand whose wrist (landmark 0) has the
smaller x becomes the left role (an empty hand makes `hand[0].x` throw). -/
def assignHandRoles (results : Results) : Option (Option Hand × Option Hand) :=
  match results.multiHandLandmarks with
  | [] => some (none, none)
  | [hand] =>
      match results.multiHandedness[0]? with
      | none => none
      | some handLabel =>
          if handLabel == "Right" then some (some hand, none)
          else some (none, some hand)
  | hand1 :: hand2 :: _ => do
      let w1 ← hand1[0]?
      let w2 ← hand2[0]?
      if w1.x < w2.x then pure (some hand1, some hand2)
      else pure (some hand2, some hand1)

/-- `getHandDistance` from `gesture-detection.js` squared: the source
returns `Math.sqrt(dx*dx + dy*dy)` and only ever compares it against a
positive threshold `t`; since `Math.sqrt` is monotone and both sides are
nonnegative, `sqrt(d) < t` holds exactly when `d < t*t`, so the square
root is dropped and the comparisons below use squared thresholds. -/
def getHandDistanceSq (leftLandmarks rightLandmarks : Hand) : Option ℚ := do
  let leftWrist ← leftLandmarks[0]?
  let rightWrist ← rightLandmarks[0]?
  let dx := leftWrist.x - rightWrist.x
  let dy := leftWrist.y - rightWrist.y
  pure (dx * dx + dy * dy)

/-- `detectTwoHandGesture` from `gesture-detection.js` lines 122-157 (the
first variant in the file): rule order HELLO, THANK_YOU, EXCELLENT,
PLEASE, then the distance-gated SORRY (`distance < 0.2`).  Outer `none`
models a JS exception; `some none` models a returned `null`. -/
def detectTwoHandGesture (leftLandmarks rightLandmarks : Option Hand) :
    Option (Option String) :=
  match leftLandmarks, rightLandmarks with
  | some ll, some rl => do
      let leftGesture ← detectSingleHandGesture (some ll)
      let rightGesture ← detectSingleHandGesture (some rl)
      let distanceSq ← getHandDistanceSq ll rl
      if leftGesture == some "OPEN_PALM" && rightGesture == some "OPEN_PALM" then
        pure (some "HELLO")
      else if leftGesture == some "FIST" && rightGesture == some "FIST" then
        pure (some "THANK_YOU")
      else if leftGesture == some "THUMBS_UP" && rightGesture == some "THUMBS_UP" then
        pure (some "EXCELLENT")
      else if leftGesture == some "FIST" && rightGesture == some "OPEN_PALM" then
        pure (some "PLEASE")
      else if leftGesture == some "OPEN_PALM" && rightGesture == some "OPEN_PALM"
              && decide (distanceSq < (0.2 : ℚ) * 0.2) then
        pure (some "SORRY")
      else
        pure none
  | _, _ => some none

/-- `detectTwoHandGesture` from `gesture-detection.js` lines 432-476 (the
second variant in the file): the distance-gated SORRY rule is listed
first ("More specific gestures FIRST"), then EXCELLENT, THANK_YOU,
PLEASE, TOGETHER, and the unconditional HELLO last. -/
def detectTwoHandGestureV2 (leftLandmarks rightLandmarks : Option Hand) :
    Option (Option String) :=
  match leftLandmarks, rightLandmarks with
  | some ll, some rl => do
      let leftGesture ← detectSingleHandGesture (some ll)
      let rightGesture ← detectSingleHandGesture (some rl)
      let distanceSq ← getHandDistanceSq ll rl
      if leftGesture == some "OPEN_PALM" && rightGesture == some "OPEN_PALM"
          && decide (distanceSq < (0.2 : ℚ) * 0.2) then
        pure (some "SORRY")
      else if leftGesture == some "THUMBS_UP" && rightGesture == some "THUMBS_UP" then
        pure (some "EXCELLENT")
      else if leftGesture == some "FIST" && rightGesture == some "FIST" then
        pure (some "THANK_YOU")
      else if leftGesture == some "FIST" && rightGesture == some "OPEN_PALM" then
        pure (some "PLEASE")
      else if leftGesture == some "POINTING_UP" && rightGesture == some "POINTING_UP" then
        pure (some "TOGETHER")
      else if leftGesture == some "OPEN_PALM" && rightGesture == some "OPEN_PALM" then
        pure (some "HELLO")
      else
        pure none
  | _, _ => some none

/-- `processGestureDetection` from `gesture-detection.js` (lines 212-233),
with `handTracker` threaded explicitly.  The roles are assigned first (a
throw there leaves the tracker untouched); then `leftHand`, `rightHand`
and `frameCount` are updated; then detection runs (a throw there leaves
`stabilityBuffer` and `lastGesture` untouched); finally the raw label goes
through `applyStabilityFilter`.  First component `none` = the frame threw;
`some out` = the returned stable gesture (itself nullable). -/
def processGestureDetection (results : Results) (st : HandTracker) :
    Option (Option String) × HandTracker :=
  match assignHandRoles results with
  | none => (none, st)
  | some (leftHand, rightHand) =>
      let st1 := { st with leftHand := leftHand, rightHand := rightHand,
                           frameCount := st.frameCount + 1 }
      let detected : Option (Option String) :=
        match leftHand, rightHand with
        | some _, some _ => detectTwoHandGesture leftHand rightHand
        | none, none => some none
        | _, _ => detectSingleHandGesture (leftHand <|> rightHand)
      match detected with
      | none => (none, st1)
      | some g =>
          let step := applyStabilityFilter g st1
          (some step.1, step.2)

/-- A entry of `ONE_HAND_SIGNS`: a partial boolean pattern over the five
fingers (`none` = the key is absent, hence a wildcard). -/
structure FingerPattern where
  thumb : Option Bool
  index : Option Bool
  middle : Option Bool
  ring : Option Bool
  pinky : Option Bool
deriving DecidableEq, Repr

/-- The `for (const finger in sign.fingers)` loop of the matchers: every
finger key present in the pattern must equal the current state. -/
def patMatch (p : FingerPattern) (fs : FingerState) : Bool :=
  (match p.thumb with | none => true | some b => b == fs.thumb) &&
  (match p.index with | none => true | some b => b == fs.index) &&
  (match p.middle with | none => true | some b => b == fs.middle) &&
  (match p.ring with | none => true | some b => b == fs.ring) &&
  (match p.pinky with | none => true | some b => b == fs.pinky)

/-- An entry of the one-hand gesture registry: either a finger pattern or
a `match` predicate over the finger state and the raw landmarks (the
predicate may throw on landmark access, hence `Option Bool`). -/
inductive OneHandSign where
  | pat (name : String) (fingers : FingerPattern)
  | pred (name : String) (m : FingerState → Hand → Option Bool)

def OneHandSign.name : OneHandSign → String
  | .pat n _ => n
  | .pred n _ => n

/-- `typeof sign.match === "function" ? sign.match({fingers, landmarks})
: <finger-pattern loop>` from `detectOneHandGesture`. -/
def signMatches : OneHandSign → FingerState → Hand → Option Bool
  | .pat _ p, fs, _ => some (patMatch p fs)
  | .pred _ m, fs, lm => m fs lm

/-- The `THUMBS_UP` rule's `match` predicate from
`src/frontend/src/gestures/oneHand/index.js` (lines 52-67 of the sign
table): thumb-only pattern plus `(ip.y - tip.y) > 0.08` on landmarks 3/4.
The JS `&&` chain short-circuits, so the `.y` reads (the only throwing
accesses) happen only when the finger pattern already holds. -/
def thumbsUpMatch (fs : FingerState) (lm : Hand) : Option Bool :=
  if fs.thumb && !fs.index && !fs.middle && !fs.ring && !fs.pinky then do
    let tip ← lm[4]?
    let ip ← lm[3]?
    pure (decide (ip.y - tip.y > (0.08 : ℚ)))
  else pure false

/-- The `THUMBS_DOWN` rule's `match` predicate (same file,
`(tip.y - ip.y) > 0.08`). -/
def thumbsDownMatch (fs : FingerState) (lm : Hand) : Option Bool :=
  if fs.thumb && !fs.index && !fs.middle && !fs.ring && !fs.pinky then do
    let tip ← lm[4]?
    let ip ← lm[3]?
    pure (decide (tip.y - ip.y > (0.08 : ℚ)))
  else pure false

/-- `ONE_HAND_SIGNS` from `src/frontend/src/gestures/oneHand/index.js`
(lines 27-84): six full finger patterns followed by the THUMBS_UP and
THUMBS_DOWN predicate rules. -/
def ONE_HAND_SIGNS : List OneHandSign :=
  [ .pat "FIVE" ⟨some true, some true, some true, some true, some true⟩,
    .pat "FIST" ⟨some false, some false, some false, some false, some false⟩,
    .pat "ONE" ⟨some false, some true, some false, some false, some false⟩,
    .pat "TWO" ⟨some false, some true, some true, some false, some false⟩,
    .pat "THREE" ⟨some false, some true, some true, some true, some false⟩,
    .pat "FOUR" ⟨some true, some true, some true, some true, some false⟩,
    .pred "THUMBS_UP" thumbsUpMatch,
    .pred "THUMBS_DOWN" thumbsDownMatch ]

/-- `ONE_HAND_SIGNS` from `src/frontend/src/gestures/oneHand/signs.js`:
the six finger patterns only (no predicate rules).  This is the table
`gestures/twoHand` imports. -/
def ONE_HAND_SIGNS_BASE : List OneHandSign :=
  [ .pat "FIVE" ⟨some true, some true, some true, some true, some true⟩,
    .pat "FIST" ⟨some false, some false, some false, some false, some false⟩,
    .pat "ONE" ⟨some false, some true, some false, some false, some false⟩,
    .pat "TWO" ⟨some false, some true, some true, some false, some false⟩,
    .pat "THREE" ⟨some false, some true, some true, some true, some false⟩,
    .pat "FOUR" ⟨some true, some true, some true, some true, some false⟩ ]

/-- The rule loop of `detectOneHandGesture` from
`src/frontend/src/gestures/oneHand/index.js` (lines 4-27), over an
arbitrary rule table: first matching rule's name wins; `"Unknown"` when
none match; `none` when a rule's predicate throws before a match. -/
def detectFromRules (rules : List OneHandSign) (fs : FingerState) (lm : Hand) :
    Option String :=
  match rules with
  | [] => some "Unknown"
  | sign :: rest => do
      let b ← signMatches sign fs lm
      if b then pure sign.name else detectFromRules rest fs lm

/-- `detectOneHandGesture` from `src/frontend/src/gestures/oneHand/index.js`:
computes the finger state with the `fingers.js` extractor and walks
`ONE_HAND_SIGNS` top to bottom. -/
def detectOneHandGesture (landmarks : Hand) : Option String := do
  let currentState ← getFingerStates2 landmarks
  detectFromRules ONE_HAND_SIGNS currentState landmarks

/-- The pattern matcher of `matchOneHandSign` in
`src/frontend/src/gestures/twoHand/relations.js` (lines 19-31), which
treats every sign as a finger pattern: for a predicate sign,
`sign.fingers` is `undefined`, the `for...in` loop runs zero times and
`match` stays `true` (JS semantics).  On the imported pattern-only table
this branch never fires. -/
def matchSignJS : OneHandSign → FingerState → Bool
  | .pat _ p, fs => patMatch p fs
  | .pred _ _, _ => true

/-- `matchOneHandSign` from `relations.js`: first matching sign of the
`signs.js` table, `null` (here `none`) when none match. -/
def matchOneHandSign (fingerState : FingerState) : Option String :=
  (ONE_HAND_SIGNS_BASE.find? (fun sign => matchSignJS sign fingerState)).map
    OneHandSign.name

/-- An entry of the detected-hands array built by `detectHands`
(`handDetector.js`): landmarks plus the reported handedness label. -/
structure TrackedHand where
  landmarks : Hand
  handedness : String
deriving DecidableEq, Repr

/-- An entry of `TWO_HAND_SIGNS` (imported by `relations.js` from
`./signs.js`, a file absent from the sources): a name plus the required
left and right one-hand sign names.  The claims below hold for every such
table, so it is kept as an explicit parameter. -/
structure TwoHandSign where
  name : String
  left : String
  right : String
deriving DecidableEq, Repr

/-- `detectTwoHandGesture` from
`src/frontend/src/gestures/twoHand/relations.js` (lines 33-54): find the
hands labelled Left and Right, compute their finger states with the
`fingers.js` extractor, match each against the `signs.js` table, and look
the pair up in `TWO_HAND_SIGNS`; `"Two hands detected"` when a role or a
single-hand sign is missing or the pair is not in the table.  `none`
models a thrown landmark-access error. -/
def detectTwoHandGestureRel (TWO_HAND_SIGNS : List TwoHandSign)
    (hands : List TrackedHand) : Option String :=
  let leftHand := hands.find? (fun h => h.handedness == "Left")
  let rightHand := hands.find? (fun h => h.handedness == "Right")
  match leftHand, rightHand with
  | some lh, some rh => do
      let leftState ← getFingerStates2 lh.landmarks
      let rightState ← getFingerStates2 rh.landmarks
      let leftSign := matchOneHandSign leftState
      let rightSign := matchOneHandSign rightState
      match leftSign, rightSign with
      | some ls, some rs =>
          match TWO_HAND_SIGNS.find? (fun sign => sign.left == ls && sign.right == rs) with
          | some sign => pure ("Number: " ++ sign.name)
          | none => pure "Two hands detected"
      | _, _ => pure "Two hands detected"
  | _, _ => some "Two hands detected"

/-- A hand showing an open palm, wrist at `(wx, 0.8)`: every fingertip is
above its base (`y` 0.3 vs 0.5) and the thumb tip is `0.1` to the side of
the thumb base — open under both thumb conventions. -/
def palmHand (wx : ℚ) : Hand :=
  [⟨wx, 0.8⟩, ⟨wx, 0.5⟩, ⟨wx, 0.6⟩, ⟨wx, 0.5⟩, ⟨wx + 0.1, 0.4⟩,
   ⟨wx, 0.5⟩, ⟨wx, 0.5⟩, ⟨wx, 0.4⟩, ⟨wx, 0.3⟩,
   ⟨wx, 0.5⟩, ⟨wx, 0.5⟩, ⟨wx, 0.4⟩, ⟨wx, 0.3⟩,
   ⟨wx, 0.5⟩, ⟨wx, 0.5⟩, ⟨wx, 0.4⟩, ⟨wx, 0.3⟩,
   ⟨wx, 0.5⟩, ⟨wx, 0.5⟩, ⟨wx, 0.4⟩, ⟨wx, 0.3⟩]

/-- A closed fist, wrist at `(wx, 0.8)`: every fingertip is below its base
(`y` 0.6 vs 0.5) and the thumb tip sits on the thumb base. -/
def fistHand (wx : ℚ) : Hand :=
  [⟨wx, 0.8⟩, ⟨wx, 0.5⟩, ⟨wx, 0.6⟩, ⟨wx, 0.6⟩, ⟨wx, 0.6⟩,
   ⟨wx, 0.5⟩, ⟨wx, 0.5⟩, ⟨wx, 0.55⟩, ⟨wx, 0.6⟩,
   ⟨wx, 0.5⟩, ⟨wx, 0.5⟩, ⟨wx, 0.55⟩, ⟨wx, 0.6⟩,
   ⟨wx, 0.5⟩, ⟨wx, 0.5⟩, ⟨wx, 0.55⟩, ⟨wx, 0.6⟩,
   ⟨wx, 0.5⟩, ⟨wx, 0.5⟩, ⟨wx, 0.55⟩, ⟨wx, 0.6⟩]

/-- A hand with only the thumb extended (tip `0.2` to the right of the
base, at the same height), all other fingers curled. -/
def thumbOnlyHand : Hand :=
  [⟨0.4, 0.8⟩, ⟨0.4, 0.5⟩, ⟨0.3, 0.5⟩, ⟨0.45, 0.5⟩, ⟨0.5, 0.5⟩,
   ⟨0.4, 0.5⟩, ⟨0.4, 0.5⟩, ⟨0.4, 0.55⟩, ⟨0.4, 0.6⟩,
   ⟨0.4, 0.5⟩, ⟨0.4, 0.5⟩, ⟨0.4, 0.55⟩, ⟨0.4, 0.6⟩,
   ⟨0.4, 0.5⟩, ⟨0.4, 0.5⟩, ⟨0.4, 0.55⟩, ⟨0.4, 0.6⟩,
   ⟨0.4, 0.5⟩, ⟨0.4, 0.5⟩, ⟨0.4, 0.55⟩, ⟨0.4, 0.6⟩]

/-- A hand whose thumb tip is `0.2` to the LEFT of the thumb base: the
horizontal distance `|tip.x - base.x| = 0.2` clears the `0.05` threshold,
but the signed test `tip.x > base.x` fails. -/
def badThumbHand : Hand :=
  [⟨0.4, 0.8⟩, ⟨0.4, 0.5⟩, ⟨0.5, 0.5⟩, ⟨0.35, 0.5⟩, ⟨0.3, 0.5⟩,
   ⟨0.4, 0.5⟩, ⟨0.4, 0.5⟩, ⟨0.4, 0.55⟩, ⟨0.4, 0.6⟩,
   ⟨0.4, 0.5⟩, ⟨0.4, 0.5⟩, ⟨0.4, 0.55⟩, ⟨0.4, 0.6⟩,
   ⟨0.4, 0.5⟩, ⟨0.4, 0.5⟩, ⟨0.4, 0.55⟩, ⟨0.4, 0.6⟩,
   ⟨0.4, 0.5⟩, ⟨0.4, 0.5⟩, ⟨0.4, 0.55⟩, ⟨0.4, 0.6⟩]

/-- A malformed hand with only 20 landmarks. -/
def shortHand : Hand := (fistHand 0.5).take 20

/-- A hand with 22 landmarks (a fist plus one extra point). -/
def longHand : Hand := fistHand 0.5 ++ [⟨0.5, 0.5⟩]

/-- A single-hand MediaPipe result. -/
def singleResults (h : Hand) (handLabel : String) : Results :=
  { multiHandLandmarks := [h], multiHandedness := [handLabel] }

/-- C1.  Majority-vote stability, window `STABILITY_FRAMES = 5`,
threshold `ceil(5 * 0.8) = 4`: from a freshly reset tracker, the raw label
sequence `[A, A, A, A, B]` produces the outputs
`[null, null, null, null, A]` — A is confirmed exactly on the frame that
fills the window, and the single B (count 1 < 4) cannot flip the confirmed
label, which ends as A. -/
theorem stability_majority_vote_AAAAB :
    runFilter [some "A", some "A", some "A", some "A", some "B"] resetHandTracker =
      ([none, none, none, none, some "A"],
       { leftHand := none, rightHand := none, frameCount := 0,
         stabilityBuffer := [some "A", some "A", some "A", some "A", some "B"],
         lastGesture := some "A" }) := by
  simp [runFilter, applyStabilityFilter, resetHandTracker, tallyGestures,
        bumpCount, maxScan, stabilityThreshold_eq, STABILITY_FRAMES]

/-- C2, counterexample.  In the `detectTwoHandGesture` at lines 122-157 of
`gesture-detection.js` the unconditional HELLO rule is evaluated BEFORE
the distance-gated SORRY rule, so two open palms whose wrists are 0.1
apart (squared distance 0.01 < 0.2 * 0.2) classify as HELLO, not SORRY:
the claim's ordering statement fails for this variant. -/
theorem twoHand_v1_close_palms_give_hello :
    getHandDistanceSq (palmHand 0.3) (palmHand 0.4) = some (0.01 : ℚ) ∧
    detectTwoHandGesture (some (palmHand 0.3)) (some (palmHand 0.4)) =
      some (some "HELLO") ∧
    detectTwoHandGesture (some (palmHand 0.3)) (some (palmHand 0.4)) ≠
      some (some "SORRY") := by
  refine ⟨?_, ?_, ?_⟩
  · norm_num [getHandDistanceSq, palmHand]
  · norm_num [detectTwoHandGesture, detectSingleHandGesture, getFingerStates,
              getHandDistanceSq, palmHand, isOpenPalm, isFist, isThumbsUp,
              isThumbsDown, isPointingUp, openCount, FingerState.toList, lt_abs]
  · norm_num [detectTwoHandGesture, detectSingleHandGesture, getFingerStates,
              getHandDistanceSq, palmHand, isOpenPalm, isFist, isThumbsUp,
              isThumbsDown, isPointingUp, openCount, FingerState.toList, lt_abs]
    decide

/-- C2, amended.  The repository holds two variants of
`detectTwoHandGesture`.  In the variant at lines 432-476 the
distance-gated SORRY rule does precede the unconditional HELLO rule:
two open palms at wrist distance 0.1 give SORRY, at 0.25 give HELLO, and
(FIST as left, OPEN_PALM as right) gives PLEASE.  In the variant at lines
122-157 HELLO precedes the gated SORRY rule, so the same close palms give
HELLO (the SORRY rule is unreachable there); that variant still gives
HELLO at 0.25 and PLEASE for fist/palm. -/
theorem twoHand_pair_rule_order_amended :
    detectTwoHandGestureV2 (some (palmHand 0.3)) (some (palmHand 0.4)) =
      some (some "SORRY") ∧
    detectTwoHandGestureV2 (some (palmHand 0.3)) (some (palmHand 0.55)) =
      some (some "HELLO") ∧
    detectTwoHandGestureV2 (some (fistHand 0.3)) (some (palmHand 0.55)) =
      some (some "PLEASE") ∧
    detectTwoHandGesture (some (palmHand 0.3)) (some (palmHand 0.55)) =
      some (some "HELLO") ∧
    detectTwoHandGesture (some (fistHand 0.3)) (some (palmHand 0.55)) =
      some (some "PLEASE") := by
  refine ⟨?_, ?_, ?_, ?_, ?_⟩ <;>
    norm_num [detectTwoHandGesture, detectTwoHandGestureV2,
              detectSingleHandGesture, getFingerStates, getHandDistanceSq,
              palmHand, fistHand, isOpenPalm, isFist, isThumbsUp,
              isThumbsDown, isPointingUp, openCount, FingerState.toList, lt_abs]
  all_goals decide

/-- With fewer than 21 landmarks, `getFingerStates` throws (the loop
reads landmark 20). -/
theorem getFingerStates_eq_none_of_short (lm : Hand) (h : lm.length < 21) :
    getFingerStates lm = none := by
  have h20 : lm[20]? = none := by
    rw [List.getElem?_eq_none_iff]
    omega
  unfold getFingerStates
  cases h4 : lm[4]? with
  | none => rfl
  | some a4 =>
    cases h2 : lm[2]? with
    | none => rfl
    | some a2 =>
      cases h8 : lm[8]? with
      | none => rfl
      | some a8 =>
        cases h6 : lm[6]? with
        | none => rfl
        | some a6 =>
          cases h12 : lm[12]? with
          | none => rfl
          | some a12 =>
            cases h10 : lm[10]? with
            | none => rfl
            | some a10 =>
              cases h16 : lm[16]? with
              | none => rfl
              | some a16 =>
                cases h14 : lm[14]? with
                | none => rfl
                | some a14 =>
                  rw [h20]
                  rfl

/-- A single-hand classification throws when its hand has fewer than 21
landmarks. -/
theorem detectSingleHandGesture_eq_none_of_short (lm : Hand) (h : lm.length < 21) :
    detectSingleHandGesture (some lm) = none := by
  have hg := getFingerStates_eq_none_of_short lm h
  unfold detectSingleHandGesture
  dsimp only
  rw [hg]
  rfl

/-- C3, amended.  A single present hand with fewer than 21 landmarks
(e.g. 20) makes the per-frame processing throw a landmark-access
TypeError — not a structured InvalidInputError naming the offending hand
and field — and the stability buffer and last confirmed label are left
unchanged (the classification aborts before the stability filter runs).
A hand with MORE than 21 landmarks is not rejected at all (see the
counterexample). -/
theorem process_rejects_short_hand (lm : Hand) (handLabel : String)
    (st : HandTracker) (h : lm.length < 21) :
    (processGestureDetection (singleResults lm handLabel) st).1 = none ∧
    (processGestureDetection (singleResults lm handLabel) st).2.stabilityBuffer =
      st.stabilityBuffer ∧
    (processGestureDetection (singleResults lm handLabel) st).2.lastGesture =
      st.lastGesture := by
  have hd := detectSingleHandGesture_eq_none_of_short lm h
  cases hlab : (handLabel == "Right") <;>
    simp [processGestureDetection, assignHandRoles, singleResults, hd, hlab]

/-- C3 witness: the 20-landmark hand is rejected and the reset tracker's
stability state is untouched. -/
theorem process_rejects_short_hand_witness :
    (processGestureDetection (singleResults shortHand "Left") resetHandTracker).1 = none ∧
    (processGestureDetection (singleResults shortHand "Left") resetHandTracker).2.stabilityBuffer =
      resetHandTracker.stabilityBuffer ∧
    (processGestureDetection (singleResults shortHand "Left") resetHandTracker).2.lastGesture =
      resetHandTracker.lastGesture :=
  process_rejects_short_hand shortHand "Left" resetHandTracker
    (by norm_num [shortHand, fistHand])

/-- C3, counterexample.  The claim quantifies over every hand whose
landmark count is not 21, but a hand with 22 landmarks is processed
without any error: the frame succeeds (no InvalidInputError) and the
stability buffer IS modified, contradicting both halves of the claim for
this input. -/
theorem process_succeeds_on_22_landmarks :
    longHand.length = 22 ∧
    (processGestureDetection (singleResults longHand "Left") resetHandTracker).1 =
      some none ∧
    (processGestureDetection (singleResults longHand "Left") resetHandTracker).2.stabilityBuffer =
      [some "FIST"] := by
  have hfs : getFingerStates longHand = some ⟨false, false, false, false, false⟩ := by
    norm_num [getFingerStates, longHand, fistHand, lt_abs]
  have hd : detectSingleHandGesture (some longHand) = some (some "FIST") := by
    simp [detectSingleHandGesture, hfs, isOpenPalm, isFist, openCount,
          FingerState.toList]
  refine ⟨by norm_num [longHand, fistHand], ?_, ?_⟩ <;>
    simp [processGestureDetection, assignHandRoles, singleResults, hd,
          applyStabilityFilter, resetHandTracker, STABILITY_FRAMES]

/-- First-match semantics of the rule loop: if rule `i` matches and every
earlier rule returns a clean non-match, the loop returns rule `i`'s name. -/
theorem detectFromRules_first (rules : List OneHandSign) (fs : FingerState)
    (lm : Hand) (i : Nat) (hi : i < rules.length)
    (hm : signMatches (rules.get ⟨i, hi⟩) fs lm = some true)
    (hprev : ∀ k (hk : k < rules.length), k < i →
      signMatches (rules.get ⟨k, hk⟩) fs lm = some false) :
    detectFromRules rules fs lm = some ((rules.get ⟨i, hi⟩).name) := by
  induction rules generalizing i with
  | nil => exact absurd hi (Nat.not_lt_zero i)
  | cons s rest ih =>
    cases i with
    | zero =>
      have hm0 : signMatches s fs lm = some true := hm
      simp only [detectFromRules]
      rw [hm0]
      rfl
    | succ j =>
      have h0 : signMatches s fs lm = some false :=
        hprev 0 (Nat.succ_pos _) (Nat.succ_pos _)
      have hm' : signMatches (rest.get ⟨j, Nat.lt_of_succ_lt_succ hi⟩) fs lm =
          some true := hm
      simp only [detectFromRules]
      rw [h0]
      exact ih j (Nat.lt_of_succ_lt_succ hi) hm'
        (fun k hk hki => hprev (k + 1) (Nat.succ_lt_succ hk) (Nat.succ_lt_succ hki))

/-- When every rule returns a clean non-match, the loop falls through to
the `"Unknown"` sentinel. -/
theorem detectFromRules_unknown (rules : List OneHandSign) (fs : FingerState)
    (lm : Hand)
    (hall : ∀ k (hk : k < rules.length),
      signMatches (rules.get ⟨k, hk⟩) fs lm = some false) :
    detectFromRules rules fs lm = some "Unknown" := by
  induction rules with
  | nil => rfl
  | cons s rest ih =>
    have h0 : signMatches s fs lm = some false := hall 0 (Nat.succ_pos _)
    simp only [detectFromRules]
    rw [h0]
    exact ih (fun k hk => hall (k + 1) (Nat.succ_lt_succ hk))

/-- C4.  The single-hand classifier walks its ordered rule list top to
bottom: when two distinct rules at positions `i < j` both match a finger
state and nothing before `i` matches, the earlier rule's name is
returned; when no rule matches, `detectOneHandGesture` returns the
explicit `"Unknown"` sentinel; and `"Unknown"` is not the name of any rule
in `ONE_HAND_SIGNS`. -/
theorem oneHand_first_match_wins (rules : List OneHandSign) (fs : FingerState)
    (lm : Hand) (i j : Nat) (hj : j < rules.length) (hij : i < j)
    (hmi : signMatches (rules.get ⟨i, Nat.lt_trans hij hj⟩) fs lm = some true)
    (_hmj : signMatches (rules.get ⟨j, hj⟩) fs lm = some true)
    (hprev : ∀ k (hk : k < rules.length), k < i →
      signMatches (rules.get ⟨k, hk⟩) fs lm = some false) :
    detectFromRules rules fs lm = some ((rules.get ⟨i, Nat.lt_trans hij hj⟩).name) ∧
    (∀ lm2 fs2, getFingerStates2 lm2 = some fs2 →
      (∀ k (hk : k < ONE_HAND_SIGNS.length),
        signMatches (ONE_HAND_SIGNS.get ⟨k, hk⟩) fs2 lm2 = some false) →
      detectOneHandGesture lm2 = some "Unknown") ∧
    (∀ s ∈ ONE_HAND_SIGNS, s.name ≠ "Unknown") := by
  refine ⟨detectFromRules_first rules fs lm i _ hmi hprev, ?_, ?_⟩
  · intro lm2 fs2 hg hall
    unfold detectOneHandGesture
    rw [hg]
    exact detectFromRules_unknown ONE_HAND_SIGNS fs2 lm2 hall
  · intro s hs
    fin_cases hs <;> decide

/-- C4 witness: on a two-rule table whose rules both match an all-open
finger state, the first rule's name is returned. -/
theorem oneHand_first_match_wins_witness :
    detectFromRules
      [OneHandSign.pat "FIVE" ⟨some true, some true, some true, some true, some true⟩,
       OneHandSign.pat "ALL_OPEN_AGAIN" ⟨some true, none, none, none, none⟩]
      ⟨true, true, true, true, true⟩ [] = some "FIVE" :=
  (oneHand_first_match_wins
    [OneHandSign.pat "FIVE" ⟨some true, some true, some true, some true, some true⟩,
     OneHandSign.pat "ALL_OPEN_AGAIN" ⟨some true, none, none, none, none⟩]
    ⟨true, true, true, true, true⟩ [] 0 1 (by decide) (by decide)
    (by decide) (by decide)
    (fun k hk hk0 => absurd hk0 (Nat.not_lt_zero k))).1

/-- C5, counterexample.  On `badThumbHand` the thumb tip is 0.2 to the
left of the thumb base, so the horizontal distance 0.2 exceeds the 0.05
threshold; yet the `fingers.js` extractor (cited by the claim) reports the
thumb CLOSED, because it uses the signed test `tip.x > base.x`, not the
claimed horizontal-distance test.  The `gesture-detection.js` extractor
reports it open, so the two cited extractors disagree. -/
theorem thumb_axis_extractors_disagree :
    |(0.3 : ℚ) - 0.5| > 0.05 ∧
    Option.map FingerState.thumb (getFingerStates badThumbHand) = some true ∧
    Option.map FingerState.thumb (getFingerStates2 badThumbHand) = some false := by
  refine ⟨by rw [abs_sub_comm]; norm_num [abs_of_nonneg], ?_, ?_⟩ <;>
    norm_num [getFingerStates, getFingerStates2, badThumbHand, lt_abs]

/-- C5, amended.  For a hand with at least 21 landmarks, both extractors
report index, middle, ring and pinky open exactly when the fingertip's y
is strictly smaller than its PIP joint's y.  For the thumb the two
extractors differ: `getFingerStates` (`gesture-detection.js`) reports open
exactly when `|tip.x - base.x| > 0.05` (the absolute-distance test, at the
upper end of the 0.04-0.05 nominal range), while `getFingerStates2`
(`fingers.js`) reports open exactly when `tip.x > base.x` (a signed test
with no threshold).  Both are pure functions of the frame's landmarks. -/
theorem finger_state_extractors_characterized (lm : Hand) (h : 21 ≤ lm.length) :
    getFingerStates lm =
      some ⟨decide (|(lm.get ⟨4, by omega⟩).x - (lm.get ⟨2, by omega⟩).x| > (0.05 : ℚ)),
            decide ((lm.get ⟨8, by omega⟩).y < (lm.get ⟨6, by omega⟩).y),
            decide ((lm.get ⟨12, by omega⟩).y < (lm.get ⟨10, by omega⟩).y),
            decide ((lm.get ⟨16, by omega⟩).y < (lm.get ⟨14, by omega⟩).y),
            decide ((lm.get ⟨20, by omega⟩).y < (lm.get ⟨18, by omega⟩).y)⟩ ∧
    getFingerStates2 lm =
      some ⟨decide ((lm.get ⟨4, by omega⟩).x > (lm.get ⟨2, by omega⟩).x),
            decide ((lm.get ⟨8, by omega⟩).y < (lm.get ⟨6, by omega⟩).y),
            decide ((lm.get ⟨12, by omega⟩).y < (lm.get ⟨10, by omega⟩).y),
            decide ((lm.get ⟨16, by omega⟩).y < (lm.get ⟨14, by omega⟩).y),
            decide ((lm.get ⟨20, by omega⟩).y < (lm.get ⟨18, by omega⟩).y)⟩ := by
  have e : ∀ (k : Nat) (hk : k < lm.length), lm[k]? = some (lm.get ⟨k, hk⟩) :=
    fun k hk => List.getElem?_eq_getElem hk
  constructor
  · unfold getFingerStates
    rw [e 4 (by omega), e 2 (by omega), e 8 (by omega), e 6 (by omega),
        e 12 (by omega), e 10 (by omega), e 16 (by omega), e 14 (by omega),
        e 20 (by omega), e 18 (by omega)]
    rfl
  · unfold getFingerStates2
    rw [e 4 (by omega), e 2 (by omega), e 8 (by omega), e 6 (by omega),
        e 12 (by omega), e 10 (by omega), e 16 (by omega), e 14 (by omega),
        e 20 (by omega), e 18 (by omega)]
    rfl

/-- C5 witness: the characterization evaluated on the open palm at wrist
x = 0.3. -/
theorem finger_state_extractors_characterized_witness :
    Option.map FingerState.index (getFingerStates (palmHand 0.3)) = some true ∧
    Option.map FingerState.thumb (getFingerStates2 (palmHand 0.3)) = some true := by
  have hch := finger_state_extractors_characterized (palmHand 0.3)
    (by norm_num [palmHand])
  rw [hch.1, hch.2]
  norm_num [palmHand]

/-- C6.  With two detected hands, `assignHandRoles` ignores the reported
handedness labels entirely (the label list `m` is arbitrary on both sides
of each equation): the hand whose wrist (landmark 0) has the smaller x
becomes the left role and the other the right role. -/
theorem assignHandRoles_two_hands_by_wrist_x (h1 h2 : Hand) (m : List String)
    (w1 w2 : Landmark) (hw1 : h1[0]? = some w1) (hw2 : h2[0]? = some w2) :
    (w1.x < w2.x →
      assignHandRoles ⟨[h1, h2], m⟩ = some (some h1, some h2)) ∧
    (w2.x < w1.x →
      assignHandRoles ⟨[h1, h2], m⟩ = some (some h2, some h1)) := by
  unfold assignHandRoles
  dsimp only
  rw [hw1, hw2]
  constructor
  · intro hlt
    simp [hlt]
  · intro hlt
    simp [hlt.asymm]

/-- C6 witness: wrists at x = 0.3 and x = 0.7 give left = the 0.3 hand and
right = the 0.7 hand even when both report the label "Left". -/
theorem assignHandRoles_two_hands_witness :
    assignHandRoles ⟨[palmHand 0.3, palmHand 0.7], ["Left", "Left"]⟩ =
      some (some (palmHand 0.3), some (palmHand 0.7)) :=
  (assignHandRoles_two_hands_by_wrist_x (palmHand 0.3) (palmHand 0.7)
    ["Left", "Left"] ⟨0.3, 0.8⟩ ⟨0.7, 0.8⟩
    (by norm_num [palmHand]) (by norm_num [palmHand])).1 (by norm_num)

/-- Membership in a bumped tally: every entry either was already present,
or is the bumped key with a count one above a previous (or zero) count. -/
theorem bumpCount_mem (acc : List (String × Nat)) (s : String) :
    ∀ p ∈ bumpCount acc s,
      p ∈ acc ∨ ∃ c, p = (s, c + 1) ∧ ((s, c) ∈ acc ∨ c = 0) := by
  induction acc with
  | nil =>
    intro p hp
    simp only [bumpCount, List.mem_singleton] at hp
    exact Or.inr ⟨0, hp, Or.inr rfl⟩
  | cons kc rest ih =>
    obtain ⟨k, c⟩ := kc
    intro p hp
    by_cases hk : k = s
    · subst hk
      simp only [bumpCount, beq_self_eq_true, if_true] at hp
      rcases List.mem_cons.mp hp with rfl | hmem
      · exact Or.inr ⟨c, rfl, Or.inl (List.mem_cons_self _ _)⟩
      · exact Or.inl (List.mem_cons_of_mem _ hmem)
    · have hkb : (k == s) = false := beq_eq_false_iff_ne.mpr hk
      simp only [bumpCount, hkb, Bool.false_eq_true, if_false] at hp
      rcases List.mem_cons.mp hp with rfl | hmem
      · exact Or.inl (List.mem_cons_self _ _)
      · rcases ih p hmem with h | ⟨c2, hpe, hc⟩
        · exact Or.inl (List.mem_cons_of_mem _ h)
        · refine Or.inr ⟨c2, hpe, ?_⟩
          rcases hc with hm2 | hz
          · exact Or.inl (List.mem_cons_of_mem _ hm2)
          · exact Or.inr hz

/-- Unfolding the tally over one appended raw label. -/
theorem tallyGestures_append (buf : List (Option String)) (g : Option String) :
    tallyGestures (buf ++ [g]) =
      match g with
      | some s => if s == "" then tallyGestures buf else bumpCount (tallyGestures buf) s
      | none => tallyGestures buf := by
  simp [tallyGestures, List.foldl_append]

/-- Every tally entry names a non-empty label and counts at most that
label's occurrences in the buffer. -/
theorem tally_count_le (buf : List (Option String)) :
    ∀ p ∈ tallyGestures buf, p.1 ≠ "" ∧ p.2 ≤ buf.count (some p.1) := by
  induction buf using List.reverseRecOn with
  | nil => intro p hp; simp [tallyGestures] at hp
  | append_singleton buf g ih =>
    intro p hp
    rw [tallyGestures_append] at hp
    have hcnt_mono : ∀ q : Option String, buf.count q ≤ (buf ++ [g]).count q := by
      intro q; simp [List.count_append]
    cases g with
    | none =>
      obtain ⟨h1, h2⟩ := ih p hp
      exact ⟨h1, h2.trans (hcnt_mono _)⟩
    | some s =>
      by_cases hs : s = ""
      · subst hs
        simp only [beq_self_eq_true, if_true] at hp
        obtain ⟨h1, h2⟩ := ih p hp
        exact ⟨h1, h2.trans (hcnt_mono _)⟩
      · have hsb : (s == "") = false := beq_eq_false_iff_ne.mpr hs
        simp only [hsb, Bool.false_eq_true, if_false] at hp
        rcases bumpCount_mem _ s p hp with hmem | ⟨c, hpe, hc⟩
        · obtain ⟨h1, h2⟩ := ih p hmem
          exact ⟨h1, h2.trans (hcnt_mono _)⟩
        · subst hpe
          have hcount : (buf ++ [some s]).count (some s) = buf.count (some s) + 1 := by
            simp [List.count_append]
          refine ⟨hs, ?_⟩
          dsimp only
          rw [hcount]
          rcases hc with hm | hz
          · have h2 := (ih _ hm).2
            dsimp only at h2
            omega
          · omega

/-- The strict-maximum scan either never fires (all counts at zero) or
lands on an entry of the scanned list. -/
theorem maxScan_mem (counts : List (String × Nat)) :
    maxScan counts = (none, 0) ∨
    ∃ k, (maxScan counts).1 = some k ∧ (k, (maxScan counts).2) ∈ counts := by
  suffices h : ∀ acc : Option String × Nat,
      List.foldl (fun a kc => if kc.2 > a.2 then (some kc.1, kc.2) else a) acc counts = acc ∨
      ∃ k, (List.foldl (fun a kc => if kc.2 > a.2 then (some kc.1, kc.2) else a) acc counts).1 = some k ∧
        (k, (List.foldl (fun a kc => if kc.2 > a.2 then (some kc.1, kc.2) else a) acc counts).2) ∈ counts by
    rcases h (none, 0) with heq | hex
    · left; exact heq
    · right; exact hex
  intro acc
  induction counts generalizing acc with
  | nil => left; rfl
  | cons kc rest ih =>
    obtain ⟨k0, c0⟩ := kc
    simp only [List.foldl_cons]
    by_cases hgt : c0 > acc.2
    · rw [if_pos hgt]
      rcases ih (some k0, c0) with heq | ⟨k, hk1, hk2⟩
      · right
        refine ⟨k0, ?_, ?_⟩
        · rw [heq]
        · rw [heq]; exact List.mem_cons_self _ _
      · right; exact ⟨k, hk1, List.mem_cons_of_mem _ hk2⟩
    · rw [if_neg hgt]
      rcases ih acc with heq | ⟨k, hk1, hk2⟩
      · left; exact heq
      · right; exact ⟨k, hk1, List.mem_cons_of_mem _ hk2⟩

/-- C7.  The confirmed label is sticky.  For any raw label and any tracker
whose buffer respects the window bound: the filter's output always equals
the (possibly updated) confirmed label; a non-null confirmed label never
becomes null; the confirmed label changes only when some non-null label
reaches the `ceil(N * 0.8)` count inside the full `STABILITY_FRAMES`
window; and on any frame that does not change it the previous confirmed
label is returned unchanged. -/
theorem stability_confirmed_label_sticky (g : Option String) (st : HandTracker)
    (hlen : st.stabilityBuffer.length ≤ STABILITY_FRAMES) :
    (applyStabilityFilter g st).1 = (applyStabilityFilter g st).2.lastGesture ∧
    (st.lastGesture.isSome = true →
      ((applyStabilityFilter g st).2.lastGesture).isSome = true) ∧
    ((applyStabilityFilter g st).2.lastGesture ≠ st.lastGesture →
      ∃ m, (applyStabilityFilter g st).2.lastGesture = some m ∧
        (applyStabilityFilter g st).2.stabilityBuffer.length = STABILITY_FRAMES ∧
        stabilityThreshold ≤ (applyStabilityFilter g st).2.stabilityBuffer.count (some m)) ∧
    ((applyStabilityFilter g st).2.lastGesture = st.lastGesture →
      (applyStabilityFilter g st).1 = st.lastGesture) := by
  unfold applyStabilityFilter
  dsimp only
  set buf2 := (if (st.stabilityBuffer ++ [g]).length > STABILITY_FRAMES
      then (st.stabilityBuffer ++ [g]).tail
      else st.stabilityBuffer ++ [g]) with hbuf2
  have hlen2 : buf2.length ≤ STABILITY_FRAMES := by
    rw [hbuf2]
    split
    · next hgt =>
      simp only [List.length_tail, List.length_append, List.length_singleton]
      omega
    · next hng =>
      simp only [List.length_append, List.length_singleton] at hng ⊢
      omega
  by_cases hfull : buf2.length < STABILITY_FRAMES
  · rw [if_pos hfull]
    exact ⟨rfl, fun h => h, fun hne => absurd rfl hne, fun _ => rfl⟩
  · rw [if_neg hfull]
    by_cases hthr : (maxScan (tallyGestures buf2)).2 ≥ stabilityThreshold
    · rw [if_pos hthr]
      have hpos : 1 ≤ (maxScan (tallyGestures buf2)).2 := by
        rw [stabilityThreshold_eq] at hthr
        omega
      rcases maxScan_mem (tallyGestures buf2) with hz | ⟨k, hk1, hk2⟩
      · rw [hz] at hpos
        simp at hpos
      · have hc := tally_count_le buf2 _ hk2
        refine ⟨rfl, ?_, ?_, ?_⟩
        · intro _
          dsimp only
          rw [hk1]
          rfl
        · intro _
          refine ⟨k, hk1, ?_, ?_⟩
          · dsimp only
            omega
          · dsimp only
            exact le_trans hthr hc.2
        · intro h
          dsimp only at h ⊢
          rw [h]
    · rw [if_neg hthr]
      exact ⟨rfl, fun h => h, fun hne => absurd rfl hne, fun _ => rfl⟩

/-- C7 witness: one step on the reset tracker (output equals the stored
confirmed label). -/
theorem stability_confirmed_label_sticky_witness :
    (applyStabilityFilter (some "A") resetHandTracker).1 =
      (applyStabilityFilter (some "A") resetHandTracker).2.lastGesture :=
  (stability_confirmed_label_sticky (some "A") resetHandTracker (by decide)).1

/-- C8.  In `relations.js`, whenever either resolved hand's one-hand sign
lookup is the unresolved `null` (no pattern of the `signs.js` table
matched), the two-hand result is the sentinel `"Two hands detected"` —
for ANY `TWO_HAND_SIGNS` table — and that sentinel is distinct from every
table-derived gesture label (all of the form `"Number: "...`) and from the
null "no gesture" value. -/
theorem twoHand_rel_unresolved_sentinel (signs2 : List TwoHandSign)
    (hands : List TrackedHand) (lh rh : TrackedHand) (lfs rfs : FingerState)
    (hl : hands.find? (fun h => h.handedness == "Left") = some lh)
    (hr : hands.find? (fun h => h.handedness == "Right") = some rh)
    (hlf : getFingerStates2 lh.landmarks = some lfs)
    (hrf : getFingerStates2 rh.landmarks = some rfs)
    (hnull : matchOneHandSign lfs = none ∨ matchOneHandSign rfs = none) :
    detectTwoHandGestureRel signs2 hands = some "Two hands detected" ∧
    (∀ s : String, "Two hands detected" ≠ "Number: " ++ s) ∧
    (some "Two hands detected" ≠ (none : Option String)) := by
  refine ⟨?_, ?_, by simp⟩
  · unfold detectTwoHandGestureRel
    rw [hl, hr]
    dsimp only
    rcases hnull with h | h
    · simp [hlf, hrf, h]
    · cases hml : matchOneHandSign lfs <;> simp [hlf, hrf, h, hml]
  · intro s heq
    obtain ⟨l⟩ := s
    have hd := congrArg String.data heq
    simp [String.data_append] at hd

/-- C8 witness: a thumb-only left hand matches no pattern of the signs
table, so the pair reports the sentinel (table instantiated empty). -/
theorem twoHand_rel_unresolved_sentinel_witness :
    detectTwoHandGestureRel []
      [⟨thumbOnlyHand, "Left"⟩, ⟨palmHand 0.5, "Right"⟩] =
      some "Two hands detected" :=
  (twoHand_rel_unresolved_sentinel []
    [⟨thumbOnlyHand, "Left"⟩, ⟨palmHand 0.5, "Right"⟩]
    ⟨thumbOnlyHand, "Left"⟩ ⟨palmHand 0.5, "Right"⟩
    ⟨true, false, false, false, false⟩ ⟨true, true, true, true, true⟩
    (by rfl) (by rfl)
    (by norm_num [getFingerStates2, thumbOnlyHand])
    (by norm_num [getFingerStates2, palmHand])
    (Or.inl (by rfl))).1

/-- While the window has not yet filled, every output of the filter is the
stored (null) confirmed label and the confirmed label stays null. -/
theorem runFilter_keeps_none (gs : List (Option String)) (st : HandTracker)
    (hlast : st.lastGesture = none)
    (hlen : st.stabilityBuffer.length + gs.length < STABILITY_FRAMES) :
    (∀ out ∈ (runFilter gs st).1, out = none) ∧
    (runFilter gs st).2.lastGesture = none := by
  induction gs generalizing st with
  | nil => exact ⟨by simp [runFilter], by simp [runFilter, hlast]⟩
  | cons g rest ih =>
    have hb1 : ¬ ((st.stabilityBuffer ++ [g]).length > STABILITY_FRAMES) := by
      simp only [List.length_append, List.length_singleton]
      simp only [List.length_cons] at hlen
      omega
    have hb2 : (st.stabilityBuffer ++ [g]).length < STABILITY_FRAMES := by
      simp only [List.length_append, List.length_singleton]
      simp only [List.length_cons] at hlen
      omega
    have hstep : applyStabilityFilter g st =
        (st.lastGesture, { st with stabilityBuffer := st.stabilityBuffer ++ [g] }) := by
      unfold applyStabilityFilter
      dsimp only
      rw [if_neg hb1, if_pos hb2]
    have hlen' : ({ st with stabilityBuffer := st.stabilityBuffer ++ [g] } :
        HandTracker).stabilityBuffer.length + rest.length < STABILITY_FRAMES := by
      simp only [List.length_append, List.length_singleton]
      simp only [List.length_cons] at hlen
      omega
    have hrec := ih { st with stabilityBuffer := st.stabilityBuffer ++ [g] }
      hlast hlen'
    unfold runFilter
    rw [hstep]
    refine ⟨?_, hrec.2⟩
    intro out hout
    rcases List.mem_cons.mp hout with rfl | hmem
    · exact hlast
    · exact hrec.1 out hmem

/-- C9.  The explicit reset replaces the tracker with the pristine state
(empty stability FIFO, null confirmed label, and nothing else: hands and
frame count also return to their initial values); after a reset one raw
label alone yields a null output, and indeed every output stays null
until the `STABILITY_FRAMES`-frame window has filled again. -/
theorem reset_clears_state_and_window_required :
    resetHandTracker.stabilityBuffer = [] ∧
    resetHandTracker.lastGesture = none ∧
    resetHandTracker.leftHand = none ∧
    resetHandTracker.rightHand = none ∧
    resetHandTracker.frameCount = 0 ∧
    (∀ g, (applyStabilityFilter g resetHandTracker).1 = none) ∧
    (∀ gs : List (Option String), gs.length < STABILITY_FRAMES →
      ∀ out ∈ (runFilter gs resetHandTracker).1, out = none) := by
  refine ⟨rfl, rfl, rfl, rfl, rfl, fun g => rfl, ?_⟩
  intro gs hlen out hout
  exact (runFilter_keeps_none gs resetHandTracker rfl
    (by simpa [resetHandTracker] using hlen)).1 out hout

/-- C9 witness: a single FIST frame right after a reset yields no
confirmed output. -/
theorem reset_clears_state_witness :
    (applyStabilityFilter (some "FIST") resetHandTracker).1 = none :=
  reset_clears_state_and_window_required.2.2.2.2.2.1 (some "FIST")

/-- Five booleans can have at most five set. -/
theorem openCount_le_five (fs : FingerState) : openCount fs ≤ 5 := by
  have h := List.length_filter_le (fun b => b) fs.toList
  simpa [openCount, FingerState.toList] using h

/-- With a full hand, `getFingerStates` succeeds. -/
theorem getFingerStates_some_of_long (lm : Hand) (h : 21 ≤ lm.length) :
    ∃ fs, getFingerStates lm = some fs := by
  have e : ∀ (k : Nat) (hk : k < lm.length), lm[k]? = some (lm.get ⟨k, hk⟩) :=
    fun k hk => List.getElem?_eq_getElem hk
  unfold getFingerStates
  rw [e 4 (by omega), e 2 (by omega), e 8 (by omega), e 6 (by omega),
      e 12 (by omega), e 10 (by omega), e 16 (by omega), e 14 (by omega),
      e 20 (by omega), e 18 (by omega)]
  exact ⟨_, rfl⟩

/-- With a full hand, the thumbs-up predicate cannot throw. -/
theorem isThumbsUp_isSome (fs : FingerState) (lm : Hand) (h : 21 ≤ lm.length) :
    ∃ b, isThumbsUp fs lm = some b := by
  unfold isThumbsUp
  split
  · rw [List.getElem?_eq_getElem (show 4 < lm.length by omega),
        List.getElem?_eq_getElem (show 8 < lm.length by omega)]
    exact ⟨_, rfl⟩
  · exact ⟨false, rfl⟩

/-- With a full hand, the thumbs-down predicate cannot throw. -/
theorem isThumbsDown_isSome (fs : FingerState) (lm : Hand) (h : 21 ≤ lm.length) :
    ∃ b, isThumbsDown fs lm = some b := by
  unfold isThumbsDown
  split
  · rw [List.getElem?_eq_getElem (show 4 < lm.length by omega),
        List.getElem?_eq_getElem (show 8 < lm.length by omega)]
    exact ⟨_, rfl⟩
  · exact ⟨false, rfl⟩

/-- With a full hand, the pointing-up predicate cannot throw. -/
theorem isPointingUp_isSome (fs : FingerState) (lm : Hand) (h : 21 ≤ lm.length) :
    ∃ b, isPointingUp fs lm = some b := by
  unfold isPointingUp
  split
  · rw [List.getElem?_eq_getElem (show 8 < lm.length by omega),
        List.getElem?_eq_getElem (show 6 < lm.length by omega)]
    exact ⟨_, rfl⟩
  · exact ⟨false, rfl⟩

/-- `detectSingleHandGesture` on a present hand either throws or returns
a label; the `return null` fallthrough is unreachable. -/
theorem detectSingleHandGesture_spec (lm : Hand) :
    detectSingleHandGesture (some lm) = none ∨
    ∃ s, detectSingleHandGesture (some lm) = some (some s) := by
  unfold detectSingleHandGesture
  dsimp only
  cases hg : getFingerStates lm with
  | none => left; rfl
  | some fs =>
    by_cases h1 : isOpenPalm fs = true
    · right; exact ⟨"OPEN_PALM", by simp [h1]⟩
    by_cases h2 : isFist fs = true
    · right; exact ⟨"FIST", by simp [h1, h2]⟩
    cases htu : isThumbsUp fs lm with
    | none => left; simp [h1, h2, htu]
    | some btu =>
      cases btu with
      | true => right; exact ⟨"THUMBS_UP", by simp [h1, h2, htu]⟩
      | false =>
        cases htd : isThumbsDown fs lm with
        | none => left; simp [h1, h2, htu, htd]
        | some btd =>
          cases btd with
          | true => right; exact ⟨"THUMBS_DOWN", by simp [h1, h2, htu, htd]⟩
          | false =>
            cases hpu : isPointingUp fs lm with
            | none => left; simp [h1, h2, htu, htd, hpu]
            | some bpu =>
              cases bpu with
              | true => right; exact ⟨"POINTING_UP", by simp [h1, h2, htu, htd, hpu]⟩
              | false =>
                right
                refine ⟨"NUMBER_" ++ toString (openCount fs), ?_⟩
                have hoc : (decide (0 ≤ openCount fs) && decide (openCount fs ≤ 5)) = true := by
                  simp [openCount_le_five fs]
                simp [h1, h2, htu, htd, hpu, hoc, openCount_le_five fs]

/-- With a full hand, `detectSingleHandGesture` cannot throw. -/
theorem detectSingleHandGesture_ne_none (lm : Hand) (h21 : 21 ≤ lm.length) :
    detectSingleHandGesture (some lm) ≠ none := by
  unfold detectSingleHandGesture
  dsimp only
  obtain ⟨fs, hg⟩ := getFingerStates_some_of_long lm h21
  rw [hg]
  by_cases h1 : isOpenPalm fs = true
  · simp [h1]
  by_cases h2 : isFist fs = true
  · simp [h1, h2]
  obtain ⟨b1, htu⟩ := isThumbsUp_isSome fs lm h21
  obtain ⟨b2, htd⟩ := isThumbsDown_isSome fs lm h21
  obtain ⟨b3, hpu⟩ := isPointingUp_isSome fs lm h21
  have hoc : (decide (0 ≤ openCount fs) && decide (openCount fs ≤ 5)) = true := by
    simp [openCount_le_five fs]
  cases b1 <;> cases b2 <;> cases b3 <;>
    simp [h1, h2, htu, htd, hpu, hoc, openCount_le_five fs]

/-- C10.  A present single hand never yields a raw `null` label: for every
landmarks array the classifier never takes the trailing `return null`
branch (the `NUMBER_<k>` fallback with `0 ≤ k ≤ 5` always applies first),
and whenever the hand has the full 21 landmarks (so no access throws) an
actual label is produced. -/
theorem single_hand_label_never_null (lm : Hand) :
    detectSingleHandGesture (some lm) ≠ some none ∧
    (21 ≤ lm.length → ∃ s, detectSingleHandGesture (some lm) = some (some s)) := by
  constructor
  · rcases detectSingleHandGesture_spec lm with h | ⟨s, hs⟩
    · simp [h]
    · simp [hs]
  · intro h21
    rcases detectSingleHandGesture_spec lm with h | ⟨s, hs⟩
    · exact absurd h (detectSingleHandGesture_ne_none lm h21)
    · exact ⟨s, hs⟩

/-- C10 witness: a full fist hand produces a (non-null) label. -/
theorem single_hand_label_never_null_witness :
    ∃ s, detectSingleHandGesture (some (fistHand 0.5)) = some (some s) :=
  (single_hand_label_never_null (fistHand 0.5)).2 (by norm_num [fistHand])
